import Mathlib

/-!
Verification of the CNPV 2018 census ingestion pipeline (`src/code/cnpv.py`).

The pipeline reads per-territory zip archives of Stata files into pandas
dataframes, cleans them, concatenates them per record type, and substitutes
value labels from a CSPro data dictionary.

Shallow embedding conventions:
* A pandas `DataFrame` is a list of named, dtyped columns of cells.  The
  census data is integer-coded, so float cells carry an integer payload
  (`Cell.fnum`) or are `NaN` (`Cell.fnan`); nullable-`Int64` cells are
  `Cell.inum`/`Cell.ina`; strings are `Cell.sval`.
* Python functions that can raise return `Option` (`none` = exception).
* Python dicts are association lists in insertion order (`PyDict`);
  assignment to an existing key keeps its position, a new key is appended.
* `str.split("_")`, `str.lower()`, `str.upper()`, `str.endswith` are
  modelled character-wise (`pySplit`, `strLower`, `strUpper`, `strEndsWith`);
  the data's filenames and column names are ASCII.
* External collaborators (the `pycspro` dictionary parser, `pd.read_stata`)
  are abstracted: an inner zip member carries the dataframe that
  `pd.read_stata` decodes from its bytes, and a parsed dictionary is a
  function from a schema identifier to its value-label table.
-/

/-- Python dict with string keys, in insertion order. -/
abbrev PyDict (α : Type) := List (String × α)

/-- `d[key]`, returning `none` on a `KeyError`. -/
def dlookup {α : Type} : PyDict α → String → Option α
  | [], _ => none
  | (k, v) :: rest, key => if k = key then some v else dlookup rest key

/-- `d[key] = v`: overwrite in place if the key exists, else append. -/
def dset {α : Type} : PyDict α → String → α → PyDict α
  | [], key, v => [(key, v)]
  | (k, w) :: rest, key, v =>
    if k = key then (k, v) :: rest else (k, w) :: dset rest key v

/-- One value of a pandas column.  Census values are integer codes, so a
float64 cell is either an integral value or `NaN`. -/
inductive Cell : Type where
  | fnum : Int → Cell
  | fnan : Cell
  | inum : Int → Cell
  | ina : Cell
  | sval : String → Cell
deriving DecidableEq, Repr

/-- The pandas dtype of a column, as far as the pipeline inspects it. -/
inductive Dtype : Type where
  | float64 : Dtype
  | int64N : Dtype
  | object : Dtype
  | other : Dtype
deriving DecidableEq, Repr

/-- A named pandas column. -/
structure Col : Type where
  name : String
  dtype : Dtype
  cells : List Cell
deriving DecidableEq, Repr

/-- A pandas dataframe: columns in order.  `pd.DataFrame()` is `[]`. -/
abbrev DataFrame := List Col

/-- Model of python `s.split("_")` (single-character separator). -/
def splitOnChar (sep : Char) : List Char → List (List Char)
  | [] => [[]]
  | c :: rest =>
    let r := splitOnChar sep rest
    if c = sep then [] :: r
    else
      match r with
      | [] => [[c]]
      | g :: gs => (c :: g) :: gs

/-- Python `s.split(sep)` for a one-character separator. -/
def pySplit (s : String) (sep : Char) : List String :=
  (splitOnChar sep s.data).map (fun cs => String.mk cs)

/-- Python `s.lower()` (ASCII, per `Char.toLower`). -/
def strLower (s : String) : String :=
  String.mk (s.data.map Char.toLower)

/-- Python `s.upper()` (ASCII, per `Char.toUpper`). -/
def strUpper (s : String) : String :=
  String.mk (s.data.map Char.toUpper)

/-- Python `s.endswith(suffix)`. -/
def strEndsWith (s suffix : String) : Bool :=
  suffix.data.isSuffixOf s.data

/-- `MapDataframeName` from `cnpv.py`: second underscore segment of the
filename, looked up in the fixed code table; `none` models the
`IndexError`/`KeyError` escaping the function. -/
def MapDataframeName (filename : String) : Option String :=
  match (pySplit filename '_')[1]? with
  | none => none
  | some key_string =>
    dlookup
      [("1VIV", "viviendas"), ("2HOG", "hogares"), ("3FALL", "fallecidos"),
       ("5PER", "personas"), ("MGN", "marco_georreferenciacion")]
      key_string

/-- `MapRecordName` from `cnpv.py`: record type to CSPro schema identifier;
`none` models the `KeyError` (in particular for `marco_georreferenciacion`). -/
def MapRecordName (record_name : String) : Option String :=
  dlookup
    [("viviendas", "REGVIV"), ("hogares", "REGHOG"),
     ("fallecidos", "REGFALL"), ("personas", "REGPER")]
    record_name

/-- C1: for every filename whose second underscore-delimited segment is one of
`1VIV`, `2HOG`, `3FALL`, `5PER`, `MGN`, `MapDataframeName` returns the
corresponding record type (`viviendas`, `hogares`, `fallecidos`, `personas`,
`marco_georreferenciacion` respectively), and for a second segment outside
that set it raises (returns `none`). -/
theorem mapDataframeName_segment_spec (f s : String)
    (h : (pySplit f '_')[1]? = some s) :
    MapDataframeName f =
      if s = "1VIV" then some "viviendas"
      else if s = "2HOG" then some "hogares"
      else if s = "3FALL" then some "fallecidos"
      else if s = "5PER" then some "personas"
      else if s = "MGN" then some "marco_georreferenciacion"
      else none := by
  unfold MapDataframeName
  rw [h]
  simp only [dlookup]
  by_cases h1 : s = "1VIV"
  · subst h1; simp
  rw [if_neg (fun hh => h1 hh.symm), if_neg h1]
  by_cases h2 : s = "2HOG"
  · subst h2; simp
  rw [if_neg (fun hh => h2 hh.symm), if_neg h2]
  by_cases h3 : s = "3FALL"
  · subst h3; simp
  rw [if_neg (fun hh => h3 hh.symm), if_neg h3]
  by_cases h4 : s = "5PER"
  · subst h4; simp
  rw [if_neg (fun hh => h4 hh.symm), if_neg h4]
  by_cases h5 : s = "MGN"
  · subst h5; simp
  rw [if_neg (fun hh => h5 hh.symm), if_neg h5]

/-- Witness for C1: `CNPV2018_1VIV_05` has second segment `1VIV` and maps to
`viviendas`. -/
theorem mapDataframeName_segment_spec_witness :
    (pySplit "CNPV2018_1VIV_05" '_')[1]? = some "1VIV" ∧
      MapDataframeName "CNPV2018_1VIV_05" = some "viviendas" := by
  constructor
  · decide
  · have h := mapDataframeName_segment_spec "CNPV2018_1VIV_05" "1VIV" (by decide)
    simpa using h

/-- Is a cell missing (`pd.isna`): float `NaN` or nullable-integer `NA`? -/
def isNA : Cell → Bool
  | .fnan => true
  | .ina => true
  | _ => false

/-- `df.select_dtypes(include=["float64"])`. -/
def select_float64 (df : DataFrame) : DataFrame :=
  df.filter (fun c => c.dtype = Dtype.float64)

/-- `.astype("Int64")` on one cell: integral floats become nullable integers,
`NaN` becomes `NA`. -/
def astypeInt64Cell : Cell → Cell
  | .fnum q => .inum q
  | .fnan => .ina
  | c => c

/-- `.astype("Int64")` on a whole dataframe. -/
def astypeInt64 (df : DataFrame) : DataFrame :=
  df.map (fun c => ⟨c.name, Dtype.int64N, c.cells.map astypeInt64Cell⟩)

/-- Row alignment performed by `DataFrame.update`'s `reindex_like`: pad a
column of `other` with `NA` (or cut it) to the caller's length. -/
def reindexCells (cells : List Cell) (n : Nat) : List Cell :=
  cells.take n ++ List.replicate (n - cells.length) Cell.ina

/-- `df.update(other)`, as implemented by pandas for this pipeline: `other` is
aligned to `df`'s columns and rows with `NA` fill; a column whose aligned
values are all `NA` is skipped unchanged (`mask.all()`); otherwise the column
is rewritten through `np.where(isna(that), this, that)` over object-coerced
values, so it keeps the original cell wherever `other` is `NA`, takes
`other`'s cell elsewhere, and its dtype becomes `object`. -/
def updateDF (df other : DataFrame) : DataFrame :=
  df.map (fun c =>
    match other.find? (fun oc => oc.name = c.name) with
    | none => c
    | some oc =>
      let that := reindexCells oc.cells c.cells.length
      if that.all isNA then c
      else ⟨c.name, Dtype.object,
        List.zipWith (fun x y => if isNA y then x else y) c.cells that⟩)

/-- `CleanDataframe` from `cnpv.py`: convert the float64 columns with
`astype("Int64")`, write them back with `df.update`, then upper-case every
column name. -/
def CleanDataframe (df : DataFrame) : DataFrame :=
  let clean_df := astypeInt64 (select_float64 df)
  let updated := updateDF df clean_df
  updated.map (fun c => ⟨strUpper c.name, c.dtype, c.cells⟩)

/-- `ReadStataData` from `cnpv.py`, applied to the dataframe that the external
`pd.read_stata` decoder produced from the file's bytes. -/
def ReadStataData (data : DataFrame) : DataFrame :=
  CleanDataframe data

/-- C2 counterexample: on the one-column float table `a = [1.0, NaN]`,
`CleanDataframe` returns an `object` column whose missing entry is still a
float `NaN` — not a nullable-integer column with the missing value as null,
as the claim states.  `df.update` only writes the non-`NA` values of
`clean_df` back into the float column, so the column never acquires the
nullable `Int64` dtype and `NaN` is never turned into `NA`. -/
theorem cleanDataframe_claim_counterexample :
    CleanDataframe [⟨"a", Dtype.float64, [Cell.fnum 1, Cell.fnan]⟩]
        = [⟨"A", Dtype.object, [Cell.inum 1, Cell.fnan]⟩] ∧
      CleanDataframe [⟨"a", Dtype.float64, [Cell.fnum 1, Cell.fnan]⟩]
        ≠ [⟨"A", Dtype.int64N, [Cell.inum 1, Cell.ina]⟩] ∧
      (CleanDataframe [⟨"a", Dtype.float64, [Cell.fnum 1, Cell.fnan]⟩]).map Col.dtype
        ≠ [Dtype.int64N] := by
  refine ⟨by decide, by decide, by decide⟩

/-- What `df.update(clean_df)` effectively does to one cell of a float64
column that is not skipped: present values become integers, `NaN` stays. -/
def promoteCell : Cell → Cell
  | .fnum q => .inum q
  | x => x

theorem isNA_astype (x : Cell) : isNA (astypeInt64Cell x) = isNA x := by
  cases x <;> rfl

theorem reindexCells_self (l : List Cell) : reindexCells l l.length = l := by
  simp [reindexCells]

theorem reindexCells_allNA {l : List Cell} (h : l.all isNA = true) (n : Nat) :
    (reindexCells l n).all isNA = true := by
  rw [List.all_eq_true] at h ⊢
  intro x hx
  rcases List.mem_append.mp hx with hx | hx
  · exact h x (List.mem_of_mem_take hx)
  · rw [List.eq_of_mem_replicate hx]; rfl

/-- With pairwise-distinct column names, looking up a column's aligned
partner in `clean_df = df.select_dtypes(["float64"]).astype("Int64")` finds
exactly the column's own converted copy when it is a float column, and
nothing otherwise. -/
theorem find_clean_eq :
    ∀ {df : DataFrame}, (df.map Col.name).Nodup → ∀ {c : Col}, c ∈ df →
      (astypeInt64 (select_float64 df)).find? (fun oc => oc.name = c.name) =
        if c.dtype = Dtype.float64 then
          some ⟨c.name, Dtype.int64N, c.cells.map astypeInt64Cell⟩
        else none := by
  intro df
  induction df with
  | nil => intro _ _ hc; cases hc
  | cons d rest ih =>
    intro h c hc
    rw [List.map_cons] at h
    have hnd := List.nodup_cons.mp h
    rcases List.mem_cons.mp hc with rfl | hc'
    · by_cases hd : c.dtype = Dtype.float64
      · rw [if_pos hd]
        unfold select_float64
        rw [List.filter_cons_of_pos (by simpa using hd)]
        unfold astypeInt64
        rw [List.map_cons]
        exact List.find?_cons_of_pos _ (by simp)
      · rw [if_neg hd]
        unfold select_float64
        rw [List.filter_cons_of_neg (by simpa using hd)]
        rw [List.find?_eq_none]
        intro oc hoc
        simp only [astypeInt64, List.mem_map] at hoc
        obtain ⟨oc', hoc', rfl⟩ := hoc
        have : oc'.name ∈ rest.map Col.name :=
          List.mem_map.mpr ⟨oc', (List.mem_filter.mp hoc').1, rfl⟩
        simp only [decide_eq_true_eq]
        intro heq
        exact hnd.1 (by rw [← heq]; exact this)
    · have hrest := ih hnd.2 hc'
      have hcname : c.name ∈ rest.map Col.name := List.mem_map.mpr ⟨c, hc', rfl⟩
      have hne : ¬(d.name = c.name) := fun hEq => hnd.1 (hEq ▸ hcname)
      by_cases hd : d.dtype = Dtype.float64
      · unfold select_float64 at hrest ⊢
        rw [List.filter_cons_of_pos (by simpa using hd)]
        unfold astypeInt64 at hrest ⊢
        rw [List.map_cons]
        rw [List.find?_cons_of_neg _ (by simpa using hne)]
        exact hrest
      · unfold select_float64 at hrest ⊢
        rw [List.filter_cons_of_neg (by simpa using hd)]
        exact hrest

theorem pick_eq_promote (x : Cell) :
    (if isNA (astypeInt64Cell x) then x else astypeInt64Cell x) = promoteCell x := by
  cases x <;> rfl

/-- `df.update(df.select_dtypes(["float64"]).astype("Int64"))` on a frame with
distinct column names: float columns with at least one present value are
rewritten to `object` columns of promoted cells, everything else is kept. -/
theorem updateDF_clean_eq {df : DataFrame} (h : (df.map Col.name).Nodup) :
    updateDF df (astypeInt64 (select_float64 df)) =
      df.map (fun c =>
        if c.dtype = Dtype.float64 ∧ ¬c.cells.all isNA = true then
          ⟨c.name, Dtype.object, c.cells.map promoteCell⟩
        else c) := by
  unfold updateDF
  apply List.map_congr_left
  intro c hc
  rw [find_clean_eq h hc]
  by_cases hd : c.dtype = Dtype.float64
  · rw [if_pos hd]
    have hlen : (c.cells.map astypeInt64Cell).length = c.cells.length :=
      List.length_map _ _
    have hre : reindexCells (c.cells.map astypeInt64Cell) c.cells.length
        = c.cells.map astypeInt64Cell := by
      rw [← hlen, reindexCells_self]
    simp only [hre]
    have hall : (c.cells.map astypeInt64Cell).all isNA = c.cells.all isNA := by
      rw [List.all_map]
      congr 1
      funext x
      exact isNA_astype x
    by_cases hNA : c.cells.all isNA = true
    · rw [if_pos (by rw [hall]; exact hNA), if_neg (by simp [hd, hNA])]
    · rw [if_neg (by rw [hall]; exact hNA), if_pos ⟨hd, hNA⟩]
      congr 1
      rw [List.zipWith_map_right, List.zipWith_same]
      exact List.map_congr_left (fun x _ => pick_eq_promote x)
  · rw [if_neg hd, if_neg (by simp [hd])]

/-- Characterization of `CleanDataframe` on frames with distinct column
names; shared by the table-cleaning claims. -/
theorem clean_eq_map {df : DataFrame} (h : (df.map Col.name).Nodup) :
    CleanDataframe df =
      df.map (fun c =>
        if c.dtype = Dtype.float64 ∧ ¬c.cells.all isNA = true then
          ⟨strUpper c.name, Dtype.object, c.cells.map promoteCell⟩
        else ⟨strUpper c.name, c.dtype, c.cells⟩) := by
  show (updateDF df (astypeInt64 (select_float64 df))).map _ = _
  rw [updateDF_clean_eq h, List.map_map]
  apply List.map_congr_left
  intro c _
  by_cases hcond : c.dtype = Dtype.float64 ∧ ¬c.cells.all isNA = true
  · simp only [Function.comp, if_pos hcond]
  · simp only [Function.comp, if_neg hcond]

/-- C2 (amended): on tables with distinct column names, table cleaning
upper-cases every column name and leaves non-float columns untouched, but a
64-bit float column with at least one present value becomes an `object`
column whose present values are integers and whose missing values remain
float `NaN` (it does not become a nullable integer column), and an all-missing
float column is left entirely unchanged apart from its name. -/
theorem cleanDataframe_amended_spec (df : DataFrame)
    (h : (df.map Col.name).Nodup) :
    CleanDataframe df =
      df.map (fun c =>
        if c.dtype = Dtype.float64 ∧ ¬c.cells.all isNA = true then
          ⟨strUpper c.name, Dtype.object, c.cells.map promoteCell⟩
        else ⟨strUpper c.name, c.dtype, c.cells⟩) :=
  clean_eq_map h

/-- Witness for the amended C2 on a concrete two-column table. -/
theorem cleanDataframe_amended_spec_witness :
    (([⟨"a", Dtype.float64, [Cell.fnum 3, Cell.fnan]⟩,
       ⟨"b", Dtype.other, [Cell.sval "x", Cell.sval "y"]⟩] :
        DataFrame).map Col.name).Nodup ∧
      CleanDataframe
          [⟨"a", Dtype.float64, [Cell.fnum 3, Cell.fnan]⟩,
           ⟨"b", Dtype.other, [Cell.sval "x", Cell.sval "y"]⟩] =
        ([⟨"a", Dtype.float64, [Cell.fnum 3, Cell.fnan]⟩,
          ⟨"b", Dtype.other, [Cell.sval "x", Cell.sval "y"]⟩] :
            DataFrame).map (fun c =>
          if c.dtype = Dtype.float64 ∧ ¬c.cells.all isNA = true then
            ⟨strUpper c.name, Dtype.object, c.cells.map promoteCell⟩
          else ⟨strUpper c.name, c.dtype, c.cells⟩) :=
  ⟨by decide, cleanDataframe_amended_spec _ (by decide)⟩

theorem charToUpper_fix (c : Char) :
    Char.toUpper (Char.toUpper c) = Char.toUpper c := by
  have key : ∀ m : Nat, 97 ≤ m → m ≤ 122 →
      Char.toUpper (Char.ofNat (m - 32)) = Char.ofNat (m - 32) := by
    intro m h1 h2
    interval_cases m <;> decide
  by_cases h : 97 ≤ c.toNat ∧ c.toNat ≤ 122
  · have hc : Char.toUpper c = Char.ofNat (c.toNat - 32) := by
      show (if c.toNat ≥ 97 ∧ c.toNat ≤ 122 then Char.ofNat (c.toNat - 32) else c)
          = Char.ofNat (c.toNat - 32)
      rw [if_pos h]
    rw [hc]
    exact key c.toNat h.1 h.2
  · have hc : Char.toUpper c = c := by
      show (if c.toNat ≥ 97 ∧ c.toNat ≤ 122 then Char.ofNat (c.toNat - 32) else c) = c
      rw [if_neg h]
    rw [hc]
    exact hc

theorem strUpper_idem (s : String) : strUpper (strUpper s) = strUpper s := by
  unfold strUpper
  apply congrArg String.mk
  show (s.data.map Char.toUpper).map Char.toUpper = s.data.map Char.toUpper
  rw [List.map_map]
  exact List.map_congr_left (fun c _ => charToUpper_fix c)

/-- After cleaning a frame with distinct column names, every column still
typed `float64` is entirely missing (those are exactly the columns that
`df.update` skipped). -/
theorem clean_float_allNA {df : DataFrame} (h : (df.map Col.name).Nodup) :
    ∀ c1 ∈ CleanDataframe df, c1.dtype = Dtype.float64 →
      c1.cells.all isNA = true := by
  intro c1 hc1 hf
  rw [clean_eq_map h] at hc1
  obtain ⟨c, _, rfl⟩ := List.mem_map.mp hc1
  by_cases hcond : c.dtype = Dtype.float64 ∧ ¬c.cells.all isNA = true
  · rw [if_pos hcond] at hf ⊢
    cases hf
  · rw [if_neg hcond] at hf ⊢
    simp only at hf ⊢
    by_cases hNA : c.cells.all isNA = true
    · exact hNA
    · exact absurd ⟨hf, hNA⟩ hcond

/-- When every float column of `d` is entirely missing, the
select/astype/update step of `CleanDataframe` leaves `d` unchanged: every
aligned column of `clean_df` is all-`NA`, so `df.update` skips everything. -/
theorem updateDF_noop {d : DataFrame}
    (hall : ∀ c ∈ d, c.dtype = Dtype.float64 → c.cells.all isNA = true) :
    updateDF d (astypeInt64 (select_float64 d)) = d := by
  unfold updateDF
  have : ∀ c ∈ d,
      (match (astypeInt64 (select_float64 d)).find? (fun oc => oc.name = c.name) with
        | none => c
        | some oc =>
          let that := reindexCells oc.cells c.cells.length
          if that.all isNA then c
          else ⟨c.name, Dtype.object,
            List.zipWith (fun x y => if isNA y then x else y) c.cells that⟩) = c := by
    intro c _
    cases hfind : (astypeInt64 (select_float64 d)).find? (fun oc => oc.name = c.name) with
    | none => rfl
    | some oc =>
      have hmem := List.mem_of_find?_eq_some hfind
      simp only [astypeInt64, List.mem_map] at hmem
      obtain ⟨oc', hoc', rfl⟩ := hmem
      have hoc'd := List.mem_filter.mp hoc'
      have hNA : oc'.cells.all isNA = true :=
        hall oc' hoc'd.1 (by simpa using hoc'd.2)
      have hNA2 : (oc'.cells.map astypeInt64Cell).all isNA = true := by
        rw [List.all_map]
        rw [List.all_eq_true] at hNA ⊢
        intro x hx
        rw [Function.comp_apply, isNA_astype]
        exact hNA x hx
      simp only [if_pos (reindexCells_allNA hNA2 c.cells.length)]
  calc d.map _ = d.map id := List.map_congr_left this
    _ = d := List.map_id d

/-- C3: table cleaning is idempotent — applying `CleanDataframe` twice yields
the same table as applying it once (for tables with pairwise-distinct column
names, the invariant pandas frames decoded from Stata files satisfy). -/
theorem cleanDataframe_idempotent (df : DataFrame)
    (h : (df.map Col.name).Nodup) :
    CleanDataframe (CleanDataframe df) = CleanDataframe df := by
  have hnoop : updateDF (CleanDataframe df)
      (astypeInt64 (select_float64 (CleanDataframe df))) = CleanDataframe df :=
    updateDF_noop (clean_float_allNA h)
  show (updateDF (CleanDataframe df)
      (astypeInt64 (select_float64 (CleanDataframe df)))).map _ = CleanDataframe df
  rw [hnoop]
  show ((updateDF df (astypeInt64 (select_float64 df))).map
      (fun c : Col => (⟨strUpper c.name, c.dtype, c.cells⟩ : Col))).map
        (fun c : Col => (⟨strUpper c.name, c.dtype, c.cells⟩ : Col))
      = CleanDataframe df
  rw [List.map_map]
  apply List.map_congr_left
  intro c _
  show (⟨strUpper (strUpper c.name), c.dtype, c.cells⟩ : Col)
      = ⟨strUpper c.name, c.dtype, c.cells⟩
  rw [strUpper_idem]

/-- Witness for C3 on a concrete mixed table. -/
theorem cleanDataframe_idempotent_witness :
    (([⟨"edad", Dtype.float64, [Cell.fnum 7, Cell.fnan]⟩,
       ⟨"nombre", Dtype.other, [Cell.sval "u", Cell.sval "v"]⟩] :
        DataFrame).map Col.name).Nodup ∧
      CleanDataframe (CleanDataframe
          [⟨"edad", Dtype.float64, [Cell.fnum 7, Cell.fnan]⟩,
           ⟨"nombre", Dtype.other, [Cell.sval "u", Cell.sval "v"]⟩]) =
        CleanDataframe
          [⟨"edad", Dtype.float64, [Cell.fnum 7, Cell.fnan]⟩,
           ⟨"nombre", Dtype.other, [Cell.sval "u", Cell.sval "v"]⟩] :=
  ⟨by decide, cleanDataframe_idempotent _ (by decide)⟩

/-- One member of an inner `*dta.zip` archive: its filename and the dataframe
the external Stata decoder produces from its bytes. -/
structure DtaFile : Type where
  name : String
  content : DataFrame
deriving DecidableEq, Repr

/-- One member of an outer territory archive: its filename and, when it is a
nested zip, the files inside it (only read for names ending in `dta.zip`). -/
structure ZipEntry : Type where
  name : String
  files : List DtaFile
deriving DecidableEq, Repr

/-- An outer per-territory zip archive, as a list of its members. -/
abbrev TerritoryArchive := List ZipEntry

/-- The inner loop of `ReadZippedStataData`: for each file of a nested
archive, derive its record type with `MapDataframeName` (a failure aborts the
whole decode) and store the decoded, cleaned dataframe under that key. -/
def readDtaArchive : List DtaFile → PyDict DataFrame → Option (PyDict DataFrame)
  | [], acc => some acc
  | f :: rest, acc =>
    match MapDataframeName f.name with
    | none => none
    | some dataframe_name =>
      readDtaArchive rest (dset acc dataframe_name (ReadStataData f.content))

/-- The outer loop of `ReadZippedStataData` over the selected nested
archives. -/
def readSelectedEntries :
    List ZipEntry → PyDict DataFrame → Option (PyDict DataFrame)
  | [], acc => some acc
  | e :: rest, acc =>
    match readDtaArchive e.files acc with
    | none => none
    | some acc2 => readSelectedEntries rest acc2

/-- `ReadZippedStataData` from `cnpv.py`: select the members whose lower-cased
name ends with `dta.zip` and fold their files into a record-type-keyed dict;
`none` models the `KeyError`/`IndexError` escaping from `MapDataframeName`. -/
def ReadZippedStataData (archive : TerritoryArchive) :
    Option (PyDict DataFrame) :=
  readSelectedEntries
    (archive.filter (fun e => strEndsWith (strLower e.name) "dta.zip")) []

/-- Number of rows of a dataframe. -/
def nrows : DataFrame → Nat
  | [] => 0
  | c :: _ => c.cells.length

/-- Vertical concatenation of two aligned columns. -/
def concatCols (ca cb : Col) : Col :=
  ⟨ca.name, if ca.dtype = cb.dtype then ca.dtype else Dtype.object,
    ca.cells ++ cb.cells⟩

/-- `pd.concat([a, b])`: an empty frame contributes nothing; frames with the
same column layout are concatenated column-wise; otherwise pandas outer-aligns
the columns, null-filling the missing parts. -/
def concatDF (a b : DataFrame) : DataFrame :=
  if a = [] then b
  else if b = [] then a
  else if a.map Col.name = b.map Col.name then
    List.zipWith concatCols a b
  else
    a.map (fun ca =>
      match b.find? (fun cb => cb.name = ca.name) with
      | some cb => concatCols ca cb
      | none =>
        ⟨ca.name, Dtype.object, ca.cells ++ List.replicate (nrows b) Cell.fnan⟩)
    ++ (b.filter (fun cb => ¬a.any (fun ca => ca.name = cb.name))).map
      (fun cb =>
        ⟨cb.name, Dtype.object, List.replicate (nrows a) Cell.fnan ++ cb.cells⟩)

/-- The glob pattern `**/[0-9][0-9]_*`: a basename starting with two digits
and an underscore. -/
def matchesTerritory (name : String) : Bool :=
  match name.data with
  | a :: b :: c :: _ => a.isDigit && b.isDigit && c = '_'
  | _ => false

/-- The five record-type keys, in the insertion order of `ReadDataFolder`'s
accumulator dict. -/
def recordTypeKeys : List String :=
  ["viviendas", "hogares", "fallecidos", "personas", "marco_georreferenciacion"]

/-- The accumulator dict of `ReadDataFolder`: five empty dataframes. -/
def initialDfs : PyDict DataFrame :=
  recordTypeKeys.map (fun k => (k, ([] : DataFrame)))

/-- `for key in dfs: dfs[key] = pd.concat([current_dfs[key], dfs[key]])` —
`none` models the `KeyError` raised when `current_dfs` lacks a key. -/
def concatStep (current_dfs : PyDict DataFrame) :
    List String → PyDict DataFrame → Option (PyDict DataFrame)
  | [], dfs => some dfs
  | key :: rest, dfs =>
    match dlookup current_dfs key, dlookup dfs key with
    | some cur, some old =>
      concatStep current_dfs rest (dset dfs key (concatDF cur old))
    | _, _ => none

/-- The loop of `ReadDataFolder` over the matched territory archives. -/
def readFolderLoop :
    List (String × TerritoryArchive) → PyDict DataFrame →
      Option (PyDict DataFrame)
  | [], dfs => some dfs
  | (_, ar) :: rest, dfs =>
    match ReadZippedStataData ar with
    | none => none
    | some current_dfs =>
      match concatStep current_dfs (dfs.map Prod.fst) dfs with
      | none => none
      | some dfs2 => readFolderLoop rest dfs2

/-- `ReadDataFolder` from `cnpv.py`: a folder is the list of its recursively
enumerated files, each with its basename and (when it is a zip) its archive
contents; the territory archives are the ones matching `[0-9][0-9]_*`. -/
def ReadDataFolder (folder : List (String × TerritoryArchive)) :
    Option (PyDict DataFrame) :=
  readFolderLoop (folder.filter (fun p => matchesTerritory p.1)) initialDfs

theorem readDtaArchive_none {files : List DtaFile} {f : DtaFile}
    (hf : f ∈ files) (hbad : MapDataframeName f.name = none) :
    ∀ acc, readDtaArchive files acc = none := by
  induction files with
  | nil => cases hf
  | cons g rest ih =>
    intro acc
    rcases List.mem_cons.mp hf with rfl | hf'
    · simp [readDtaArchive, hbad]
    · unfold readDtaArchive
      cases hg : MapDataframeName g.name with
      | none => rfl
      | some nm => exact ih hf' _

theorem readSelectedEntries_none {l : List ZipEntry} {e : ZipEntry}
    (he : e ∈ l) (hfail : ∀ acc, readDtaArchive e.files acc = none) :
    ∀ acc, readSelectedEntries l acc = none := by
  induction l with
  | nil => cases he
  | cons d rest ih =>
    intro acc
    rcases List.mem_cons.mp he with rfl | he'
    · simp [readSelectedEntries, hfail acc]
    · unfold readSelectedEntries
      cases hd : readDtaArchive d.files acc with
      | none => rfl
      | some acc2 => exact ih he' acc2

/-- C6: decoding a territory archive is fail-fast — if any file inside any
selected nested `dta.zip` archive has a name that `MapDataframeName` cannot
map, the whole `ReadZippedStataData` call raises (`none`): no partial mapping
of record types to tables is returned. -/
theorem readZippedStataData_fail_fast (archive : TerritoryArchive)
    (e : ZipEntry) (f : DtaFile) (he : e ∈ archive)
    (hsel : strEndsWith (strLower e.name) "dta.zip" = true)
    (hf : f ∈ e.files) (hbad : MapDataframeName f.name = none) :
    ReadZippedStataData archive = none := by
  unfold ReadZippedStataData
  exact readSelectedEntries_none
    (List.mem_filter.mpr ⟨he, hsel⟩)
    (fun acc => readDtaArchive_none hf hbad acc) []

/-- Witness for C6: an archive with one nested `dta.zip` holding a file whose
name has no recognizable second underscore segment. -/
theorem readZippedStataData_fail_fast_witness :
    (⟨"05_dta.zip", [⟨"CNPV2018_9XXX_05", []⟩]⟩ : ZipEntry)
        ∈ [(⟨"05_dta.zip", [⟨"CNPV2018_9XXX_05", []⟩]⟩ : ZipEntry)] ∧
      strEndsWith (strLower "05_dta.zip") "dta.zip" = true ∧
      (⟨"CNPV2018_9XXX_05", []⟩ : DtaFile)
        ∈ [(⟨"CNPV2018_9XXX_05", []⟩ : DtaFile)] ∧
      MapDataframeName "CNPV2018_9XXX_05" = none ∧
      ReadZippedStataData [⟨"05_dta.zip", [⟨"CNPV2018_9XXX_05", []⟩]⟩] = none :=
  ⟨by decide, by decide, by decide, by decide,
    readZippedStataData_fail_fast
      [⟨"05_dta.zip", [⟨"CNPV2018_9XXX_05", []⟩]⟩]
      ⟨"05_dta.zip", [⟨"CNPV2018_9XXX_05", []⟩]⟩
      ⟨"CNPV2018_9XXX_05", []⟩
      (by decide) (by decide) (by decide) (by decide)⟩

/-- C7: `ReadDataFolder` on a folder with no entry matching the two-digit
territory pattern returns, without raising, the dict of exactly the five
record-type keys, each bound to an empty table. -/
theorem readDataFolder_empty_folder (folder : List (String × TerritoryArchive))
    (h : ∀ p ∈ folder, matchesTerritory p.1 = false) :
    ReadDataFolder folder =
      some [("viviendas", []), ("hogares", []), ("fallecidos", []),
        ("personas", []), ("marco_georreferenciacion", [])] := by
  unfold ReadDataFolder
  rw [List.filter_eq_nil_iff.mpr (by intro p hp; simp [h p hp])]
  rfl

/-- Witness for C7: a folder holding one non-matching file. -/
theorem readDataFolder_empty_folder_witness :
    (∀ p ∈ [(("readme.txt", []) : String × TerritoryArchive)],
        matchesTerritory p.1 = false) ∧
      ReadDataFolder [("readme.txt", [])] =
        some [("viviendas", []), ("hogares", []), ("fallecidos", []),
          ("personas", []), ("marco_georreferenciacion", [])] :=
  ⟨by decide, readDataFolder_empty_folder _ (by decide)⟩

/-- C10 (implicit claim): a matched territory archive whose outer zip has no
member ending in `dta.zip` decodes to an empty dict, and `ReadDataFolder` then
raises a lookup error (`none`) when indexing the missing record-type key,
instead of skipping the archive or treating the missing tables as empty. -/
theorem readDataFolder_missing_key_error (name : String)
    (ar : TerritoryArchive) (hm : matchesTerritory name = true)
    (hno : ∀ e ∈ ar, strEndsWith (strLower e.name) "dta.zip" = false) :
    ReadZippedStataData ar = some [] ∧ ReadDataFolder [(name, ar)] = none := by
  have h1 : ReadZippedStataData ar = some [] := by
    unfold ReadZippedStataData
    rw [List.filter_eq_nil_iff.mpr (by intro e he; simp [hno e he])]
    rfl
  refine ⟨h1, ?_⟩
  unfold ReadDataFolder
  rw [show ([(name, ar)].filter (fun p => matchesTerritory p.1))
      = [(name, ar)] by simp [hm]]
  unfold readFolderLoop
  rw [h1]
  rfl

/-- Witness for C10: a `01_`-named archive containing only a stray text
file. -/
theorem readDataFolder_missing_key_error_witness :
    matchesTerritory "01_Antioquia.zip" = true ∧
      (∀ e ∈ [(⟨"readme.txt", []⟩ : ZipEntry)],
          strEndsWith (strLower e.name) "dta.zip" = false) ∧
      ReadZippedStataData [⟨"readme.txt", []⟩] = some [] ∧
      ReadDataFolder [("01_Antioquia.zip", [⟨"readme.txt", []⟩])] = none := by
  refine ⟨by decide, by decide, ?_, ?_⟩
  · exact (readDataFolder_missing_key_error "01_Antioquia.zip" _ (by decide)
      (by decide)).1
  · exact (readDataFolder_missing_key_error "01_Antioquia.zip" _ (by decide)
      (by decide)).2

/-- Python `==` as used by `df.replace` key matching: numeric values compare
across the float/integer representations, missing values match nothing. -/
def cellEq : Cell → Cell → Bool
  | .fnum a, .fnum b => a = b
  | .fnum a, .inum b => a = b
  | .inum a, .fnum b => a = b
  | .inum a, .inum b => a = b
  | .sval a, .sval b => a = b
  | _, _ => false

/-- A per-schema value-label table: for each column name, the encoded
value → label pairs (what `pycspro`'s `get_value_labels` returns). -/
abbrev ValueLabels := List (String × List (Cell × Cell))

/-- The per-column dict of a nested replace dict, if the column is present. -/
def colLabels (vl : ValueLabels) (name : String) :
    Option (List (Cell × Cell)) :=
  (vl.find? (fun p => p.1 = name)).map (fun p => p.2)

/-- The label for an encoded value, if the value is present in the column's
value-label dict. -/
def labelFor (m : List (Cell × Cell)) (x : Cell) : Option Cell :=
  (m.find? (fun p => cellEq p.1 x)).map (fun p => p.2)

/-- One cell under `df.replace`: substituted when a label exists, otherwise
kept. -/
def replaceCell (m : List (Cell × Cell)) (x : Cell) : Cell :=
  match labelFor m x with
  | some lbl => lbl
  | none => x

/-- `df.replace(nested_dict)` with a per-column dict of value→label dicts:
columns absent from the dict pass through untouched (the dtype of a
substituted column is kept abstract; the claims are value-level). -/
def replaceDF (df : DataFrame) (vl : ValueLabels) : DataFrame :=
  df.map (fun c =>
    match colLabels vl c.name with
    | some m => ⟨c.name, c.dtype, c.cells.map (replaceCell m)⟩
    | none => c)

/-- The parsed CSPro dictionary (the external `pycspro` object), abstracted
by the lookup it exposes. -/
structure DictionaryParser : Type where
  get_value_labels : String → ValueLabels

/-- `GetValueLabels` from `cnpv.py`: `MapRecordName`'s `KeyError`
propagates. -/
def GetValueLabels (dct : DictionaryParser) (table_name : String) :
    Option ValueLabels :=
  (MapRecordName table_name).map dct.get_value_labels

/-- The labelling loop of `CreateProcessedDataframe`: every table except
`marco_georreferenciacion` is replaced through its schema's value labels. -/
def applyLabelsLoop (dct : DictionaryParser) :
    List (String × DataFrame) → PyDict DataFrame → Option (PyDict DataFrame)
  | [], dfs => some dfs
  | (name, df) :: rest, dfs =>
    if name = "marco_georreferenciacion" then applyLabelsLoop dct rest dfs
    else
      match GetValueLabels dct name with
      | none => none
      | some vl => applyLabelsLoop dct rest (dset dfs name (replaceDF df vl))

/-- `CreateProcessedDataframe` from `cnpv.py`, with the already-parsed
dictionary as the external collaborator. -/
def CreateProcessedDataframe (folder : List (String × TerritoryArchive))
    (dct : DictionaryParser) : Option (PyDict DataFrame) :=
  match ReadDataFolder folder with
  | none => none
  | some dfs => applyLabelsLoop dct dfs dfs

theorem dlookup_dset_self {α : Type} (d : PyDict α) (k : String) (v : α) :
    dlookup (dset d k v) k = some v := by
  induction d with
  | nil => simp [dset, dlookup]
  | cons a rest ih =>
    obtain ⟨ka, va⟩ := a
    show dlookup (if ka = k then (ka, v) :: rest else (ka, va) :: dset rest k v) k
        = some v
    by_cases hk : ka = k
    · rw [if_pos hk]
      show (if ka = k then some v else dlookup rest k) = some v
      rw [if_pos hk]
    · rw [if_neg hk]
      show (if ka = k then some va else dlookup (dset rest k v) k) = some v
      rw [if_neg hk, ih]

theorem dlookup_dset_ne {α : Type} (d : PyDict α) {k k' : String} (v : α)
    (h : ¬k' = k) : dlookup (dset d k v) k' = dlookup d k' := by
  have h2 : ¬k = k' := fun hh => h hh.symm
  induction d with
  | nil =>
    show dlookup [(k, v)] k' = none
    simp [dlookup, h2]
  | cons a rest ih =>
    obtain ⟨ka, va⟩ := a
    show dlookup (if ka = k then (ka, v) :: rest else (ka, va) :: dset rest k v) k'
        = dlookup ((ka, va) :: rest) k'
    by_cases hk : ka = k
    · rw [if_pos hk]
      have hne : ¬ka = k' := by rw [hk]; exact h2
      show (if ka = k' then some v else dlookup rest k')
          = (if ka = k' then some va else dlookup rest k')
      rw [if_neg hne, if_neg hne]
    · rw [if_neg hk]
      show (if ka = k' then some va else dlookup (dset rest k v) k')
          = (if ka = k' then some va else dlookup rest k')
      by_cases hk' : ka = k'
      · rw [if_pos hk', if_pos hk']
      · rw [if_neg hk', if_neg hk', ih]

theorem dset_map_fst {α : Type} {d : PyDict α} {k : String} (v : α)
    (h : (dlookup d k).isSome = true) :
    (dset d k v).map Prod.fst = d.map Prod.fst := by
  induction d with
  | nil => simp [dlookup] at h
  | cons a rest ih =>
    obtain ⟨ka, va⟩ := a
    by_cases hk : ka = k
    · simp [dset, hk]
    · simp only [dlookup, if_neg hk] at h
      simp [dset, hk, ih h]

theorem concatStep_map_fst {cur : PyDict DataFrame} :
    ∀ {keys : List String} {dfs out : PyDict DataFrame},
      concatStep cur keys dfs = some out →
        out.map Prod.fst = dfs.map Prod.fst := by
  intro keys
  induction keys with
  | nil =>
    intro dfs out h
    simp only [concatStep] at h
    exact congrArg (List.map Prod.fst) (Option.some.inj h).symm
  | cons key rest ih =>
    intro dfs out h
    unfold concatStep at h
    cases hcur : dlookup cur key with
    | none => rw [hcur] at h; cases h
    | some c1 =>
      cases hdfs : dlookup dfs key with
      | none => rw [hcur, hdfs] at h; cases h
      | some old =>
        rw [hcur, hdfs] at h
        rw [ih h]
        exact dset_map_fst _ (by rw [hdfs]; rfl)

theorem readFolderLoop_map_fst :
    ∀ {l : List (String × TerritoryArchive)} {dfs out : PyDict DataFrame},
      readFolderLoop l dfs = some out →
        out.map Prod.fst = dfs.map Prod.fst := by
  intro l
  induction l with
  | nil =>
    intro dfs out h
    simp only [readFolderLoop] at h
    exact congrArg (List.map Prod.fst) (Option.some.inj h).symm
  | cons p rest ih =>
    intro dfs out h
    obtain ⟨nm, ar⟩ := p
    unfold readFolderLoop at h
    cases hz : ReadZippedStataData ar with
    | none => simp only [hz] at h; cases h
    | some cur =>
      simp only [hz] at h
      cases hcs : concatStep cur (dfs.map Prod.fst) dfs with
      | none => simp only [hcs] at h; cases h
      | some dfs2 =>
        simp only [hcs] at h
        rw [ih h, concatStep_map_fst hcs]

/-- A successful `ReadDataFolder` always returns a dict with exactly the five
record-type keys, in order. -/
theorem readDataFolder_keys {folder : List (String × TerritoryArchive)}
    {dfs : PyDict DataFrame} (h : ReadDataFolder folder = some dfs) :
    dfs.map Prod.fst = recordTypeKeys := by
  unfold ReadDataFolder at h
  rw [readFolderLoop_map_fst h]
  rfl

theorem pydict_shape {α : Type} {l : PyDict α}
    (h : l.map Prod.fst = recordTypeKeys) :
    ∃ v1 v2 v3 v4 v5 : α,
      l = [("viviendas", v1), ("hogares", v2), ("fallecidos", v3),
        ("personas", v4), ("marco_georreferenciacion", v5)] := by
  unfold recordTypeKeys at h
  rcases l with _ | ⟨⟨k1, v1⟩, _ | ⟨⟨k2, v2⟩, _ | ⟨⟨k3, v3⟩, _ | ⟨⟨k4, v4⟩,
    _ | ⟨⟨k5, v5⟩, tail⟩⟩⟩⟩⟩ <;> simp_all

/-- C4: label substitution passes the georeference table through unmodified —
for any folder whose aggregation succeeds, `CreateProcessedDataframe`
succeeds, its `marco_georreferenciacion` table is exactly the aggregated one,
and the dictionary is never queried for a georeference schema (that key has
no schema identifier: `GetValueLabels` on it would raise, yet the pipeline
succeeds because the key is skipped). -/
theorem createProcessedDataframe_georef_unchanged
    (folder : List (String × TerritoryArchive)) (dct : DictionaryParser)
    (dfs : PyDict DataFrame) (h : ReadDataFolder folder = some dfs) :
    GetValueLabels dct "marco_georreferenciacion" = none ∧
      ∃ out, CreateProcessedDataframe folder dct = some out ∧
        dlookup out "marco_georreferenciacion"
          = dlookup dfs "marco_georreferenciacion" := by
  obtain ⟨v1, v2, v3, v4, v5, rfl⟩ := pydict_shape (readDataFolder_keys h)
  refine ⟨rfl, ?_⟩
  unfold CreateProcessedDataframe
  rw [h]
  exact ⟨[("viviendas", replaceDF v1 (dct.get_value_labels "REGVIV")),
    ("hogares", replaceDF v2 (dct.get_value_labels "REGHOG")),
    ("fallecidos", replaceDF v3 (dct.get_value_labels "REGFALL")),
    ("personas", replaceDF v4 (dct.get_value_labels "REGPER")),
    ("marco_georreferenciacion", v5)], rfl, rfl⟩

/-- Witness for C4: the empty folder with a trivial dictionary. -/
theorem createProcessedDataframe_georef_unchanged_witness :
    GetValueLabels ⟨fun _ => []⟩ "marco_georreferenciacion" = none ∧
      ∃ out, CreateProcessedDataframe [] ⟨fun _ => []⟩ = some out ∧
        dlookup out "marco_georreferenciacion"
          = dlookup initialDfs "marco_georreferenciacion" :=
  createProcessedDataframe_georef_unchanged [] ⟨fun _ => []⟩ initialDfs rfl

/-- Cell-level view of `df.replace` with a nested dict: a cell is substituted
exactly when its column is in the dict and the cell's value has a label
there; every other cell (and every column absent from the dict) passes
through unchanged. -/
theorem replaceDF_cellwise (df : DataFrame) (vl : ValueLabels) :
    ∀ (i : Nat) (c : Col), df[i]? = some c →
      ∃ c' : Col, (replaceDF df vl)[i]? = some c' ∧ c'.name = c.name ∧
        c'.dtype = c.dtype ∧ c'.cells.length = c.cells.length ∧
        ∀ (j : Nat) (x : Cell), c.cells[j]? = some x →
          ((∃ (m : List (Cell × Cell)) (lbl : Cell),
              colLabels vl c.name = some m ∧ labelFor m x = some lbl ∧
              c'.cells[j]? = some lbl) ∨
            ((colLabels vl c.name = none ∨
                ∃ m : List (Cell × Cell),
                  colLabels vl c.name = some m ∧ labelFor m x = none) ∧
              c'.cells[j]? = some x)) := by
  intro i c hc
  have hmap : (replaceDF df vl)[i]? =
      some (match colLabels vl c.name with
        | some m => (⟨c.name, c.dtype, c.cells.map (replaceCell m)⟩ : Col)
        | none => c) := by
    unfold replaceDF
    rw [List.getElem?_map, hc]
    rfl
  cases hcol : colLabels vl c.name with
  | none =>
    refine ⟨c, ?_, rfl, rfl, rfl, ?_⟩
    · rw [hmap, hcol]
    · intro j x hx
      exact Or.inr ⟨Or.inl rfl, hx⟩
  | some m =>
    refine ⟨⟨c.name, c.dtype, c.cells.map (replaceCell m)⟩, ?_, rfl, rfl,
      by simp, ?_⟩
    · rw [hmap, hcol]
    · intro j x hx
      have hxj : (c.cells.map (replaceCell m))[j]? = some (replaceCell m x) := by
        rw [List.getElem?_map, hx]
        rfl
      cases hl : labelFor m x with
      | some lbl =>
        refine Or.inl ⟨m, lbl, rfl, hl, ?_⟩
        rw [hxj]
        show some (replaceCell m x) = some lbl
        unfold replaceCell
        rw [hl]
      | none =>
        refine Or.inr ⟨Or.inr ⟨m, rfl, hl⟩, ?_⟩
        rw [hxj]
        show some (replaceCell m x) = some x
        unfold replaceCell
        rw [hl]

/-- C5: for every non-georeference record type, the pipeline substitutes that
table per column through its schema's value-label mapping: a cell is replaced
exactly when its value has a corresponding label for its column, and every
value without a label — and every column absent from the mapping — is left
unchanged. -/
theorem createProcessedDataframe_label_substitution
    (folder : List (String × TerritoryArchive)) (dct : DictionaryParser)
    (dfs : PyDict DataFrame) (name : String) (df : DataFrame)
    (h : ReadDataFolder folder = some dfs)
    (hng : name ≠ "marco_georreferenciacion")
    (hmem : name ∈ recordTypeKeys)
    (hdf : dlookup dfs name = some df) :
    ∃ schema out, MapRecordName name = some schema ∧
      CreateProcessedDataframe folder dct = some out ∧
      dlookup out name = some (replaceDF df (dct.get_value_labels schema)) ∧
      ∀ (i : Nat) (c : Col), df[i]? = some c →
        ∃ c' : Col, (replaceDF df (dct.get_value_labels schema))[i]? = some c' ∧
          c'.name = c.name ∧ c'.dtype = c.dtype ∧
          c'.cells.length = c.cells.length ∧
          ∀ (j : Nat) (x : Cell), c.cells[j]? = some x →
            ((∃ (m : List (Cell × Cell)) (lbl : Cell),
                colLabels (dct.get_value_labels schema) c.name = some m ∧
                labelFor m x = some lbl ∧ c'.cells[j]? = some lbl) ∨
              ((colLabels (dct.get_value_labels schema) c.name = none ∨
                  ∃ m : List (Cell × Cell),
                    colLabels (dct.get_value_labels schema) c.name = some m ∧
                      labelFor m x = none) ∧
                c'.cells[j]? = some x)) := by
  obtain ⟨v1, v2, v3, v4, v5, rfl⟩ := pydict_shape (readDataFolder_keys h)
  have hout : CreateProcessedDataframe folder dct =
      some [("viviendas", replaceDF v1 (dct.get_value_labels "REGVIV")),
        ("hogares", replaceDF v2 (dct.get_value_labels "REGHOG")),
        ("fallecidos", replaceDF v3 (dct.get_value_labels "REGFALL")),
        ("personas", replaceDF v4 (dct.get_value_labels "REGPER")),
        ("marco_georreferenciacion", v5)] := by
    unfold CreateProcessedDataframe
    rw [h]
    rfl
  unfold recordTypeKeys at hmem
  simp only [List.mem_cons, List.not_mem_nil, or_false] at hmem
  rcases hmem with rfl | rfl | rfl | rfl | rfl
  · obtain rfl : v1 = df := Option.some.inj hdf
    exact ⟨"REGVIV", _, rfl, hout, rfl, replaceDF_cellwise _ _⟩
  · obtain rfl : v2 = df := Option.some.inj hdf
    exact ⟨"REGHOG", _, rfl, hout, rfl, replaceDF_cellwise _ _⟩
  · obtain rfl : v3 = df := Option.some.inj hdf
    exact ⟨"REGFALL", _, rfl, hout, rfl, replaceDF_cellwise _ _⟩
  · obtain rfl : v4 = df := Option.some.inj hdf
    exact ⟨"REGPER", _, rfl, hout, rfl, replaceDF_cellwise _ _⟩
  · exact absurd rfl hng

/-- Witness for C5: the empty folder, the `viviendas` table, and a trivial
dictionary. -/
theorem createProcessedDataframe_label_substitution_witness :
    ReadDataFolder ([] : List (String × TerritoryArchive)) = some initialDfs ∧
      ("viviendas" : String) ≠ "marco_georreferenciacion" ∧
      "viviendas" ∈ recordTypeKeys ∧
      dlookup initialDfs "viviendas" = some ([] : DataFrame) ∧
      ∃ schema out, MapRecordName "viviendas" = some schema ∧
        CreateProcessedDataframe [] ⟨fun _ => []⟩ = some out ∧
        dlookup out "viviendas" = some (replaceDF []
          ((⟨fun _ => []⟩ : DictionaryParser).get_value_labels schema)) ∧
        ∀ (i : Nat) (c : Col), ([] : DataFrame)[i]? = some c →
          ∃ c' : Col, (replaceDF []
              ((⟨fun _ => []⟩ : DictionaryParser).get_value_labels
                schema))[i]? = some c' ∧
            c'.name = c.name ∧ c'.dtype = c.dtype ∧
            c'.cells.length = c.cells.length ∧
            ∀ (j : Nat) (x : Cell), c.cells[j]? = some x →
              ((∃ (m : List (Cell × Cell)) (lbl : Cell),
                  colLabels ((⟨fun _ => []⟩ : DictionaryParser).get_value_labels
                    schema) c.name = some m ∧
                  labelFor m x = some lbl ∧ c'.cells[j]? = some lbl) ∨
                ((colLabels ((⟨fun _ => []⟩ :
                      DictionaryParser).get_value_labels schema) c.name = none ∨
                    ∃ m : List (Cell × Cell),
                      colLabels ((⟨fun _ => []⟩ :
                          DictionaryParser).get_value_labels schema) c.name
                          = some m ∧
                        labelFor m x = none) ∧
                  c'.cells[j]? = some x)) :=
  ⟨rfl, by decide, by decide, rfl,
    createProcessedDataframe_label_substitution [] ⟨fun _ => []⟩ initialDfs
      "viviendas" [] rfl (by decide) (by decide) rfl⟩

/-- The row of a dataframe at index `i`: the (column name, value) pairs of
every column long enough. -/
def rowAt : DataFrame → Nat → List (String × Cell)
  | [], _ => []
  | c :: rest, i =>
    match c.cells[i]? with
    | some v => (c.name, v) :: rowAt rest i
    | none => rowAt rest i

/-- All rows of a dataframe, top to bottom. -/
def rowsOf (df : DataFrame) : List (List (String × Cell)) :=
  (List.range (nrows df)).map (rowAt df)

theorem concatDF_nil_right (a : DataFrame) : concatDF a [] = a := by
  by_cases ha : a = []
  · subst ha; rfl
  · unfold concatDF
    rw [if_neg ha, if_pos rfl]

theorem rowAt_zip_single :
    ∀ (tb ta : DataFrame), tb.map Col.name = ta.map Col.name →
      (∀ c ∈ tb, c.cells.length = 1) → (∀ c ∈ ta, c.cells.length = 1) →
      rowAt (List.zipWith concatCols tb ta) 0 = rowAt tb 0 ∧
        rowAt (List.zipWith concatCols tb ta) 1 = rowAt ta 0 := by
  intro tb
  induction tb with
  | nil =>
    intro ta hn _ _
    have hta : ta = [] := by
      cases ta with
      | nil => rfl
      | cons c r => simp at hn
    subst hta
    exact ⟨rfl, rfl⟩
  | cons cb rb ih =>
    intro ta hn hlb hla
    cases ta with
    | nil => simp at hn
    | cons ca ra =>
      simp only [List.map_cons, List.cons.injEq] at hn
      obtain ⟨xb, hxb⟩ := List.length_eq_one.mp (hlb cb (by simp))
      obtain ⟨xa, hxa⟩ := List.length_eq_one.mp (hla ca (by simp))
      have ihr := ih ra hn.2 (fun c hc => hlb c (List.mem_cons_of_mem _ hc))
        (fun c hc => hla c (List.mem_cons_of_mem _ hc))
      have hcc : (concatCols cb ca).cells = [xb, xa] := by
        unfold concatCols
        rw [hxb, hxa]
        rfl
      have hccn : (concatCols cb ca).name = cb.name := rfl
      constructor
      · show rowAt (concatCols cb ca :: List.zipWith concatCols rb ra) 0
            = rowAt (cb :: rb) 0
        unfold rowAt
        simp only [hcc, hccn, hxb, List.getElem?_cons_zero]
        rw [ihr.1]
      · show rowAt (concatCols cb ca :: List.zipWith concatCols rb ra) 1
            = rowAt (ca :: ra) 0
        unfold rowAt
        simp only [hcc, hccn, hxa, List.getElem?_cons_succ,
          List.getElem?_cons_zero]
        rw [hn.1, ihr.2]

/-- Concatenating two single-row frames with the same column layout yields
exactly the two rows, first frame's row first. -/
theorem rowsOf_concat_single {ta tb : DataFrame}
    (hn : ta.map Col.name = tb.map Col.name)
    (ha : ∀ c ∈ ta, c.cells.length = 1) (hb : ∀ c ∈ tb, c.cells.length = 1)
    (hane : ta ≠ []) :
    rowsOf (concatDF tb ta) = rowsOf tb ++ rowsOf ta := by
  cases ta with
  | nil => exact absurd rfl hane
  | cons ca ra =>
    cases tb with
    | nil => simp at hn
    | cons cb rb =>
      have hz : concatDF (cb :: rb) (ca :: ra)
          = List.zipWith concatCols (cb :: rb) (ca :: ra) := by
        unfold concatDF
        rw [if_neg (by simp), if_neg (by simp), if_pos hn.symm]
      obtain ⟨xb, hxb⟩ := List.length_eq_one.mp (hb cb (by simp))
      obtain ⟨xa, hxa⟩ := List.length_eq_one.mp (ha ca (by simp))
      have hrow := rowAt_zip_single (cb :: rb) (ca :: ra) hn.symm hb ha
      have hn2 : nrows (concatDF (cb :: rb) (ca :: ra)) = 2 := by
        rw [hz]
        show (concatCols cb ca).cells.length = 2
        unfold concatCols
        simp [hxb, hxa]
      have hnb : nrows (cb :: rb) = 1 := by
        show cb.cells.length = 1
        simp [hxb]
      have hna : nrows (ca :: ra) = 1 := by
        show ca.cells.length = 1
        simp [hxa]
      unfold rowsOf
      rw [hn2, hnb, hna]
      show [rowAt (concatDF (cb :: rb) (ca :: ra)) 0,
          rowAt (concatDF (cb :: rb) (ca :: ra)) 1]
        = [rowAt (cb :: rb) 0] ++ [rowAt (ca :: ra) 0]
      rw [hz, hrow.1, hrow.2]
      rfl

/-- C8: `ReadDataFolder` on a folder with two matching territory archives,
each decoding to a single-row table for every record type (single-row tables
of a shared column layout per record type, the invariant the census shards
satisfy), returns for every record type a unified table holding exactly those
two rows, in some order. -/
theorem readDataFolder_two_territories
    (p1 p2 : String) (a1 a2 : TerritoryArchive) (d1 d2 : PyDict DataFrame)
    (hm1 : matchesTerritory p1 = true) (hm2 : matchesTerritory p2 = true)
    (hz1 : ReadZippedStataData a1 = some d1)
    (hz2 : ReadZippedStataData a2 = some d2)
    (htab : ∀ k ∈ recordTypeKeys,
      (dlookup d1 k).isSome = true ∧ (dlookup d2 k).isSome = true ∧
        (dlookup d1 k).getD [] ≠ [] ∧
        ((dlookup d1 k).getD []).map Col.name
          = ((dlookup d2 k).getD []).map Col.name ∧
        (∀ c ∈ (dlookup d1 k).getD [], c.cells.length = 1) ∧
        (∀ c ∈ (dlookup d2 k).getD [], c.cells.length = 1)) :
    ∃ out, ReadDataFolder [(p1, a1), (p2, a2)] = some out ∧
      ∀ k ∈ recordTypeKeys, ∃ u, dlookup out k = some u ∧
        List.Perm (rowsOf u) (rowsOf ((dlookup d1 k).getD [])
          ++ rowsOf ((dlookup d2 k).getD [])) := by
  obtain ⟨hs1vi, hs2vi, hnevi, hnvi, hl1vi, hl2vi⟩ :=
    htab "viviendas" (by decide)
  obtain ⟨hs1ho, hs2ho, hneho, hnho, hl1ho, hl2ho⟩ :=
    htab "hogares" (by decide)
  obtain ⟨hs1fa, hs2fa, hnefa, hnfa, hl1fa, hl2fa⟩ :=
    htab "fallecidos" (by decide)
  obtain ⟨hs1pe, hs2pe, hnepe, hnpe, hl1pe, hl2pe⟩ :=
    htab "personas" (by decide)
  obtain ⟨hs1ma, hs2ma, hnema, hnma, hl1ma, hl2ma⟩ :=
    htab "marco_georreferenciacion" (by decide)
  obtain ⟨t1vi, ht1vi⟩ := Option.isSome_iff_exists.mp hs1vi
  obtain ⟨t2vi, ht2vi⟩ := Option.isSome_iff_exists.mp hs2vi
  obtain ⟨t1ho, ht1ho⟩ := Option.isSome_iff_exists.mp hs1ho
  obtain ⟨t2ho, ht2ho⟩ := Option.isSome_iff_exists.mp hs2ho
  obtain ⟨t1fa, ht1fa⟩ := Option.isSome_iff_exists.mp hs1fa
  obtain ⟨t2fa, ht2fa⟩ := Option.isSome_iff_exists.mp hs2fa
  obtain ⟨t1pe, ht1pe⟩ := Option.isSome_iff_exists.mp hs1pe
  obtain ⟨t2pe, ht2pe⟩ := Option.isSome_iff_exists.mp hs2pe
  obtain ⟨t1ma, ht1ma⟩ := Option.isSome_iff_exists.mp hs1ma
  obtain ⟨t2ma, ht2ma⟩ := Option.isSome_iff_exists.mp hs2ma
  simp only [ht1vi, ht2vi, Option.getD_some] at hnevi hnvi hl1vi hl2vi
  simp only [ht1ho, ht2ho, Option.getD_some] at hneho hnho hl1ho hl2ho
  simp only [ht1fa, ht2fa, Option.getD_some] at hnefa hnfa hl1fa hl2fa
  simp only [ht1pe, ht2pe, Option.getD_some] at hnepe hnpe hl1pe hl2pe
  simp only [ht1ma, ht2ma, Option.getD_some] at hnema hnma hl1ma hl2ma
  have hstep1 : concatStep d1 (initialDfs.map Prod.fst) initialDfs = some
      [("viviendas", t1vi), ("hogares", t1ho), ("fallecidos", t1fa),
        ("personas", t1pe), ("marco_georreferenciacion", t1ma)] := by
    simp [concatStep, initialDfs, recordTypeKeys, dlookup, dset,
      ht1vi, ht1ho, ht1fa, ht1pe, ht1ma, concatDF_nil_right]
  have hstep2 : concatStep d2
      ((([("viviendas", t1vi), ("hogares", t1ho), ("fallecidos", t1fa),
        ("personas", t1pe), ("marco_georreferenciacion", t1ma)] :
          PyDict DataFrame)).map Prod.fst)
      [("viviendas", t1vi), ("hogares", t1ho), ("fallecidos", t1fa),
        ("personas", t1pe), ("marco_georreferenciacion", t1ma)] = some
      [("viviendas", concatDF t2vi t1vi), ("hogares", concatDF t2ho t1ho),
        ("fallecidos", concatDF t2fa t1fa), ("personas", concatDF t2pe t1pe),
        ("marco_georreferenciacion", concatDF t2ma t1ma)] := by
    simp [concatStep, dlookup, dset, ht2vi, ht2ho, ht2fa, ht2pe, ht2ma]
  have hRDF : ReadDataFolder [(p1, a1), (p2, a2)] = some
      [("viviendas", concatDF t2vi t1vi), ("hogares", concatDF t2ho t1ho),
        ("fallecidos", concatDF t2fa t1fa), ("personas", concatDF t2pe t1pe),
        ("marco_georreferenciacion", concatDF t2ma t1ma)] := by
    unfold ReadDataFolder
    rw [show ([(p1, a1), (p2, a2)].filter (fun p => matchesTerritory p.1))
        = [(p1, a1), (p2, a2)] from by simp [hm1, hm2]]
    simp only [readFolderLoop, hz1]
    simp only [hstep1]
    simp only [readFolderLoop, hz2]
    simp only [hstep2]
  refine ⟨_, hRDF, ?_⟩
  intro k hk
  simp only [recordTypeKeys, List.mem_cons, List.not_mem_nil, or_false] at hk
  rcases hk with rfl | rfl | rfl | rfl | rfl
  · refine ⟨concatDF t2vi t1vi, rfl, ?_⟩
    simp only [ht1vi, ht2vi, Option.getD_some]
    rw [rowsOf_concat_single hnvi hl1vi hl2vi hnevi]
    exact List.perm_append_comm
  · refine ⟨concatDF t2ho t1ho, rfl, ?_⟩
    simp only [ht1ho, ht2ho, Option.getD_some]
    rw [rowsOf_concat_single hnho hl1ho hl2ho hneho]
    exact List.perm_append_comm
  · refine ⟨concatDF t2fa t1fa, rfl, ?_⟩
    simp only [ht1fa, ht2fa, Option.getD_some]
    rw [rowsOf_concat_single hnfa hl1fa hl2fa hnefa]
    exact List.perm_append_comm
  · refine ⟨concatDF t2pe t1pe, rfl, ?_⟩
    simp only [ht1pe, ht2pe, Option.getD_some]
    rw [rowsOf_concat_single hnpe hl1pe hl2pe hnepe]
    exact List.perm_append_comm
  · refine ⟨concatDF t2ma t1ma, rfl, ?_⟩
    simp only [ht1ma, ht2ma, Option.getD_some]
    rw [rowsOf_concat_single hnma hl1ma hl2ma hnema]
    exact List.perm_append_comm

/-- A one-column, one-row demonstration table. -/
def demoRow (s : String) : DataFrame :=
  [⟨"V", Dtype.other, [Cell.sval s]⟩]

/-- A nested `dta.zip` archive holding one file per record type. -/
def demoFiles (s : String) : List DtaFile :=
  [⟨"X_1VIV_05", demoRow s⟩, ⟨"X_2HOG_05", demoRow s⟩,
   ⟨"X_3FALL_05", demoRow s⟩, ⟨"X_5PER_05", demoRow s⟩,
   ⟨"X_MGN_05", demoRow s⟩]

/-- A demonstration territory archive. -/
def demoArchive (s : String) : TerritoryArchive :=
  [⟨"05_dta.zip", demoFiles s⟩]

/-- The record-type dict the demonstration archive decodes to. -/
def demoDict (s : String) : PyDict DataFrame :=
  [("viviendas", demoRow s), ("hogares", demoRow s), ("fallecidos", demoRow s),
   ("personas", demoRow s), ("marco_georreferenciacion", demoRow s)]

/-- Witness for C8: two concrete territory archives, one row each. -/
theorem readDataFolder_two_territories_witness :
    matchesTerritory "05_CO" = true ∧ matchesTerritory "08_CO" = true ∧
      ReadZippedStataData (demoArchive "r1") = some (demoDict "r1") ∧
      ReadZippedStataData (demoArchive "r2") = some (demoDict "r2") ∧
      (∀ k ∈ recordTypeKeys,
        (dlookup (demoDict "r1") k).isSome = true ∧
          (dlookup (demoDict "r2") k).isSome = true ∧
          (dlookup (demoDict "r1") k).getD [] ≠ [] ∧
          ((dlookup (demoDict "r1") k).getD []).map Col.name
            = ((dlookup (demoDict "r2") k).getD []).map Col.name ∧
          (∀ c ∈ (dlookup (demoDict "r1") k).getD [], c.cells.length = 1) ∧
          (∀ c ∈ (dlookup (demoDict "r2") k).getD [], c.cells.length = 1)) ∧
      ∃ out,
        ReadDataFolder [("05_CO", demoArchive "r1"), ("08_CO", demoArchive "r2")]
            = some out ∧
          ∀ k ∈ recordTypeKeys, ∃ u, dlookup out k = some u ∧
            List.Perm (rowsOf u) (rowsOf ((dlookup (demoDict "r1") k).getD [])
              ++ rowsOf ((dlookup (demoDict "r2") k).getD [])) :=
  ⟨by decide, by decide, by decide, by decide, by decide,
    readDataFolder_two_territories "05_CO" "08_CO" (demoArchive "r1")
      (demoArchive "r2") (demoDict "r1") (demoDict "r2") (by decide)
      (by decide) (by decide) (by decide) (by decide)⟩

/-- C9: `MapRecordName` returns the fixed schema identifier for the four
non-georeference record types and raises (`none`) for
`marco_georreferenciacion`. -/
theorem mapRecordName_spec :
    MapRecordName "viviendas" = some "REGVIV" ∧
      MapRecordName "hogares" = some "REGHOG" ∧
      MapRecordName "fallecidos" = some "REGFALL" ∧
      MapRecordName "personas" = some "REGPER" ∧
      MapRecordName "marco_georreferenciacion" = none := by
  decide
